import Mathlib

/-!
Shallow embedding of the two scripts of the `cellhahser-scripts` repository:

* `Acurast-Lite-Install-Update.py` — release-asset resolution, APK download and a
  concurrent install fan-out across a fleet of devices;
* `setup_ssh.py` — a single-device Termux SSH provisioning flow driven by adb
  (bridge) invocations and UI-event injection.

External effects (subprocess execution, the network fetch, the filesystem) are
modelled as explicit environment functions; the nondeterministic completion
order of the thread pool is an explicit permutation parameter.
-/

/-! ### Python string primitives -/

/-- One step of Python's substring search: does `sub` occur at the head of `s`? -/
def matchAt (sub s : List Char) : Bool :=
  match sub, s with
  | [], _ => true
  | _ :: _, [] => false
  | a :: su, b :: t => a == b && matchAt su t

/-- Python's `sub in s` on the underlying character lists. -/
def containsSub (sub : List Char) : List Char → Bool
  | [] => matchAt sub []
  | c :: t => matchAt sub (c :: t) || containsSub sub t

/-- Python's `sub in s` membership test on strings. -/
def pyIn (sub s : String) : Bool := containsSub sub.data s.data

/-- Python's `str.lower()` (ASCII case folding, character by character). -/
def pyLower (s : String) : String := ⟨s.data.map Char.toLower⟩

/-- Python's `s.endswith(p)`: `p` is a suffix of `s`. -/
def pyEndsWith (s p : String) : Bool := matchAt p.data.reverse s.data.reverse

/-- ASCII whitespace characters stripped by Python's `str.strip()`. -/
def pyIsSpace (c : Char) : Bool :=
  c == ' ' || c == '\t' || c == '\n' || c == '\r' || c == '\x0b' || c == '\x0c'

/-- Python's `str.strip()` (ASCII whitespace). -/
def pyStrip (s : String) : String :=
  ⟨((s.data.dropWhile pyIsSpace).reverse.dropWhile pyIsSpace).reverse⟩

/-! ### The subprocess result record

`subprocess.run(..., capture_output=True, text=True)` yields an object with the
captured exit code, stdout and stderr. -/

/-- Captured result of a completed bridge subprocess. -/
structure CompletedProcess where
  returncode : Int
  stdout : String
  stderr : String
deriving DecidableEq, Repr

/-! ### Install flow (`Acurast-Lite-Install-Update.py`) -/

/-- A release asset of the GitHub `releases/latest` payload: its `name` and
`browser_download_url` fields. -/
structure Asset where
  name : String
  browser_download_url : String
deriving DecidableEq, Repr

/-- The asset predicate of line 28:
`"processor-lite" in asset["name"].lower() and asset["name"].endswith(".apk")`. -/
def liteApkMatch (a : Asset) : Bool :=
  pyIn "processor-lite" (pyLower a.name) && pyEndsWith a.name ".apk"

/-- The `for asset in release_data.get("assets", [])` loop of
`get_latest_acurast_lite_apk`: first asset satisfying `liteApkMatch`, in listing
order. -/
def findLiteApk : List Asset → Option Asset
  | [] => none
  | a :: rest => if liteApkMatch a then some a else findLiteApk rest

/-- `get_latest_acurast_lite_apk`: the fetch/parse step is an environment input
(`Except.error` = network failure or malformed body, which the function
re-raises); over a parsed assets list it returns `(apk_url, apk_name)` of the
first matching asset, and raises when none matches (line 35). -/
def get_latest_acurast_lite_apk (fetched : Except String (List Asset)) :
    Except String (String × String) :=
  match fetched with
  | .error e => .error e
  | .ok assets =>
    match findLiteApk assets with
    | some asset => .ok (asset.browser_download_url, asset.name)
    | none => .error "Could not find processor-lite APK in latest release"

/-- Per-device outcome, mirroring the three `return` strings of
`install_apk_on_device`: `"[id] Success"`, `"[id] Failed: msg"`,
`"[id] Error: e"`. -/
inductive Outcome where
  | Success : Outcome
  | Failed : String → Outcome
  | Error : String → Outcome
deriving DecidableEq, Repr

/-- Does this outcome denote an exception raised by the orchestration code? -/
def Outcome.isError : Outcome → Bool
  | .Error _ => true
  | _ => false

/-- `install_apk_on_device(device_id, apk_path)`: runs the bridge install
subprocess (modelled as `adbInstall`, whose `Except.error` case is an exception
raised during the call); classifies the result per lines 81–87 and converts an
exception into an `Error` outcome per lines 89–91. -/
def install_apk_on_device
    (adbInstall : String → String → Except String CompletedProcess)
    (device_id apk_path : String) : Outcome :=
  match adbInstall device_id apk_path with
  | .error e => .Error e
  | .ok result =>
    if result.returncode == 0 || pyIn "Success" result.stdout then
      .Success
    else
      .Failed (if result.stderr == "" then result.stdout else result.stderr)

/-- The `ThreadPoolExecutor` fan-out of `main` (lines 125–138): one task per
device identifier; `order` is the completion order in which `as_completed`
yields the futures, as a permutation of the submitted indices. Each yielded
future is mapped back to its device via `future_to_device`. -/
def runAcrossFleet (devices : List String) (op : String → Outcome)
    (order : List (Fin devices.length)) : List (String × Outcome) :=
  order.map fun i => (devices.get i, op (devices.get i))

/-- Environment of the install flow's `main`: the release fetch, the artifact
download, the per-device bridge install call, and the filesystem-existence
check used at cleanup time. -/
structure InstallEnv where
  fetched : Except String (List Asset)
  download : String → String → Except String String
  adbInstall : String → String → Except String CompletedProcess
  fileExists : String → Bool

/-- Observable events of the install flow's `main`. -/
inductive IEvent where
  | install (device_id : String)
  | cleanup (removed : Bool)
  | done
deriving DecidableEq, Repr

/-- Is this event the artifact-cleanup step? -/
def isCleanupEvent : IEvent → Bool
  | .cleanup _ => true
  | _ => false

/-- `main` of the install flow: returns early on an empty device list; aborts
(caught at line 152) when resolution or download raises; otherwise fans the
install out across all devices, collects outcomes in completion order, then
performs the guarded cleanup `if os.path.exists(apk_path): os.unlink(apk_path)`
and prints the completion banner (`IEvent.done`). -/
def mainInstall (env : InstallEnv) (devices : List String)
    (order : List (Fin devices.length)) :
    List IEvent × List (String × Outcome) :=
  if devices.isEmpty then ([], [])
  else
    match get_latest_acurast_lite_apk env.fetched with
    | .error _ => ([], [])
    | .ok (apk_url, apk_name) =>
      match env.download apk_url apk_name with
      | .error _ => ([], [])
      | .ok apk_path =>
        let results := runAcrossFleet devices
          (fun d => install_apk_on_device env.adbInstall d apk_path) order
        ((order.map fun i => IEvent.install (devices.get i)) ++
          [IEvent.cleanup (env.fileExists apk_path), IEvent.done], results)

/-! ### Provisioning flow (`setup_ssh.py`) -/

/-- Characters Python's `shlex.quote` considers safe (ASCII `\w` plus
`@ % + = : , . /` and the hyphen): a string of only these is returned
unquoted. -/
def shlexSafeChar (c : Char) : Bool :=
  c.isAlphanum || c == '_' || c == '@' || c == '%' || c == '+' || c == '=' ||
    c == ':' || c == ',' || c == '.' || c == '/' || c == '-'

/-- `s.replace("'", "'\"'\"'")` on the character list: each single quote is
replaced by the five-character bridge `'"'"'`. -/
def quoteInner : List Char → List Char
  | [] => []
  | c :: rest =>
    if c = '\'' then '\'' :: '"' :: '\'' :: '"' :: '\'' :: quoteInner rest
    else c :: quoteInner rest

/-- Python's `shlex.quote(s)`: `''` for the empty string, `s` unchanged when all
characters are safe, otherwise `s` wrapped in single quotes with every embedded
single quote replaced by `'"'"'`. -/
def shlexQuote (s : String) : String :=
  if s = "" then "''"
  else if s.data.all shlexSafeChar then s
  else "'" ++ String.mk (quoteInner s.data) ++ "'"

/-- Characters that are shell syntax outside quotes (word separators, control
operators, redirections, expansion and glob characters): a word containing one
of these unquoted is not a plain literal word. -/
def shellMeta (c : Char) : Bool :=
  c == ' ' || c == '\t' || c == '\n' || c == ';' || c == '|' || c == '&' ||
    c == '<' || c == '>' || c == '(' || c == ')' || c == '$' || c == '`' ||
    c == '*' || c == '?' || c == '[' || c == '#' || c == '~' || c == '!' ||
    c == '{' || c == '}'

/-- Quoting state of the POSIX shell word recogniser: outside quotes, inside
single quotes, inside double quotes, and the two states reached after a
backslash (outside quotes and inside double quotes). -/
inductive QState where
  | norm
  | normEsc
  | single
  | double
  | doubleEsc
deriving DecidableEq, Repr

/-- POSIX shell quoting rules, restricted to pure quoting: recognises one word
and returns the literal string it denotes (accumulated in reverse in `acc`).
Returns `none` when the input is not a single literal word — an unquoted
metacharacter, an expansion character (`$`, backtick, also inside double
quotes), or an unterminated quote would make the shell interpret it as
additional syntax rather than literal word content. -/
def parseWord : QState → List Char → List Char → Option (List Char)
  | st, acc, [] =>
    match st with
    | .norm => some acc.reverse
    | _ => none
  | st, acc, c :: rest =>
    match st with
    | .norm =>
      if c = '\'' then parseWord .single acc rest
      else if c = '"' then parseWord .double acc rest
      else if c = '\\' then parseWord .normEsc acc rest
      else if shellMeta c then none
      else parseWord .norm (c :: acc) rest
    | .normEsc =>
      if c = '\n' then parseWord .norm acc rest
      else parseWord .norm (c :: acc) rest
    | .single =>
      if c = '\'' then parseWord .norm acc rest
      else parseWord .single (c :: acc) rest
    | .double =>
      if c = '"' then parseWord .norm acc rest
      else if c = '$' || c = '`' then none
      else if c = '\\' then parseWord .doubleEsc acc rest
      else parseWord .double (c :: acc) rest
    | .doubleEsc =>
      if c = '$' || c = '`' || c = '"' || c = '\\' then
        parseWord .double (c :: acc) rest
      else if c = '\n' then parseWord .double acc rest
      else parseWord .double (c :: '\\' :: acc) rest

/-- Parse a complete string as a single shell word under POSIX quoting rules,
returning the literal string it denotes. -/
def shellParseWord (s : String) : Option String :=
  (parseWord .norm [] s.data).map String.mk

/-- The Termux bash script skeleton of lines 72–95, rendered with the already
shell-quoted password `pw`. -/
def termux_bash_script (pw : String) : String :=
  "#!/data/data/com.termux/files/usr/bin/bash\nset -e\n\nTERMUX_SSH_PASSWORD=" ++
    pw ++
    "\n\nif command -v sshd >/dev/null 2>&1; then\n  echo \"OpenSSH already installed (sshd found)\"\nelse\n  pkg update -y\n  pkg install -y openssh\nfi\n\n# Update password (Termux's passwd prompts twice)\nif [ -n \"$TERMUX_SSH_PASSWORD\" ]; then\n  printf '%s\n%s\n' \"$TERMUX_SSH_PASSWORD\" \"$TERMUX_SSH_PASSWORD\" | passwd\nfi\n\n# Start sshd if not already running\nif ! pgrep -x sshd >/dev/null 2>&1; then\n  sshd\nfi\n\necho \"Termux SSH ready\"\n"

/-- Environment of the provisioning flow: the bridge executable path (`ADB`),
the behaviour of subprocess execution as a function of the argument vector, and
the temporary-file name chosen by `tempfile.NamedTemporaryFile`. -/
structure SshEnv where
  ADB : String
  exec : List String → CompletedProcess
  tempPath : String

/-- Observable events of the provisioning flow: a bridge (adb) invocation with
its argument vector, or the write of the rendered script to a local file. -/
inductive SEvent where
  | adb (args : List String)
  | writeFile (content : String)
deriving DecidableEq, Repr

/-- Result of running the script as a process: a `SystemExit` with a numeric
status, or an uncaught exception; both carry the trace of events so far. -/
inductive PyResult where
  | exit (code : Int) (trace : List SEvent)
  | exc (msg : String) (trace : List SEvent)
deriving DecidableEq, Repr

/-- `run(args, check=...)` of `setup_ssh.py`: executes the bridge subprocess and
returns the completed process; with `check = true` (the Python default) a
non-zero exit raises `CalledProcessError` (modelled as `Except.error`). -/
def run (env : SshEnv) (args : List String) (check : Bool) :
    Except String CompletedProcess :=
  let cp := env.exec args
  if check && cp.returncode != 0 then .error "CalledProcessError" else .ok cp

/-- Argument vector of the Termux package query. -/
def pmListArgs (env : SshEnv) (device_id : String) : List String :=
  [env.ADB, "-s", device_id, "shell", "pm", "list", "packages", "com.termux"]

/-- `check_termux_installed(device_id)`: queries the package list with
`check=False` and tests `"com.termux" in (cp.stdout or "")`. -/
def check_termux_installed (env : SshEnv) (device_id : String) : Bool :=
  match run env (pmListArgs env device_id) false with
  | .ok cp => pyIn "com.termux" cp.stdout
  | .error _ => false

/-- Fixed remote destination of the pushed script. -/
def device_script_path : String := "/data/local/tmp/setup_ssh.sh"

/-- Argument vector of the `am force-stop` call. -/
def forceStopArgs (env : SshEnv) (device_id : String) : List String :=
  [env.ADB, "-s", device_id, "shell", "am", "force-stop", "com.termux"]

/-- Argument vector of the `push` call. -/
def pushArgs (env : SshEnv) (device_id : String) : List String :=
  [env.ADB, "-s", device_id, "push", env.tempPath, device_script_path]

/-- Argument vector of the `chmod 755` call. -/
def chmodArgs (env : SshEnv) (device_id : String) : List String :=
  [env.ADB, "-s", device_id, "shell", "chmod", "755", device_script_path]

/-- Argument vector of the `am start` call launching the Termux activity. -/
def amStartArgs (env : SshEnv) (device_id : String) : List String :=
  [env.ADB, "-s", device_id, "shell", "am", "start", "-n",
    "com.termux/.app.TermuxActivity"]

/-- Argument vector of the keyboard text injection
(`typed = "bash%s" + device_script_path`). -/
def inputTextArgs (env : SshEnv) (device_id : String) : List String :=
  [env.ADB, "-s", device_id, "shell", "input", "text",
    "bash%s" ++ device_script_path]

/-- Argument vector of the enter-key injection. -/
def keyeventArgs (env : SshEnv) (device_id : String) : List String :=
  [env.ADB, "-s", device_id, "shell", "input", "keyevent", "66"]

/-- `main()` of `setup_ssh.py` over an explicit device list and password:
returns 2 on an empty device list or an empty/whitespace-only password, acts on
`DEVICES[0]` only, returns 3 when Termux is not installed, then renders and
writes the script, force-stops Termux (`check=False`), pushes and chmods the
script (`check=True` — a failure raises and propagates), relaunches Termux and
injects the command text and the enter key (`check=False`), returning 0. -/
def setup_main (env : SshEnv) (DEVICES : List String)
    (TERMUX_SSH_PASSWORD : String) : PyResult :=
  if DEVICES.isEmpty then .exit 2 []
  else if pyStrip TERMUX_SSH_PASSWORD = "" then .exit 2 []
  else
    let device_id := DEVICES.headD ""
    let t0 := [SEvent.adb (pmListArgs env device_id)]
    if !check_termux_installed env device_id then .exit 3 t0
    else
      let pw := shlexQuote TERMUX_SSH_PASSWORD
      let t1 := t0 ++ [SEvent.writeFile (termux_bash_script pw)]
      let t2 := t1 ++ [SEvent.adb (forceStopArgs env device_id)]
      let t3 := t2 ++ [SEvent.adb (pushArgs env device_id)]
      match run env (pushArgs env device_id) true with
      | .error e => .exc e t3
      | .ok _ =>
        let t4 := t3 ++ [SEvent.adb (chmodArgs env device_id)]
        match run env (chmodArgs env device_id) true with
        | .error e => .exc e t4
        | .ok _ =>
          .exit 0 (t4 ++ [SEvent.adb (amStartArgs env device_id),
            SEvent.adb (inputTextArgs env device_id),
            SEvent.adb (keyeventArgs env device_id)])

/-! ### Helper lemmas -/

/-- A character that is shell syntax outside quotes is never in `shlex.quote`'s
safe set. -/
theorem meta_not_safe (c : Char) (hm : shellMeta c = true) :
    shlexSafeChar c = false := by
  simp only [shellMeta, Bool.or_eq_true, beq_iff_eq] at hm
  casesm* _ ∨ _ <;> subst_vars <;> decide

/-- A `shlex.quote`-safe character is not a quote, a backslash, or shell
metasyntax. -/
theorem safe_char_plain (c : Char) (h : shlexSafeChar c = true) :
    c ≠ '\'' ∧ c ≠ '"' ∧ c ≠ '\\' ∧ shellMeta c = false := by
  refine ⟨?_, ?_, ?_, ?_⟩
  · rintro rfl; exact absurd h (by decide)
  · rintro rfl; exact absurd h (by decide)
  · rintro rfl; exact absurd h (by decide)
  · cases hm : shellMeta c with
    | false => rfl
    | true => rw [meta_not_safe c hm] at h; exact absurd h (by decide)

/-- Parsing a run of `shlex.quote`-safe characters outside quotes accumulates
them literally. -/
theorem parseWord_safe (l : List Char) (acc : List Char)
    (h : l.all shlexSafeChar = true) :
    parseWord .norm acc l = some (acc.reverse ++ l) := by
  induction l generalizing acc with
  | nil => simp [parseWord]
  | cons c t ih =>
    rw [List.all_cons, Bool.and_eq_true] at h
    obtain ⟨hc, ht⟩ := h
    obtain ⟨h1, h2, h3, h4⟩ := safe_char_plain c hc
    simp only [parseWord]
    rw [if_neg h1, if_neg h2, if_neg h3, if_neg (by simp [h4]),
      ih (c :: acc) ht]
    simp

/-- Parsing the single-quoted body produced by `quoteInner` (with its
`'"'"'` bridges) recovers the original characters. -/
theorem parseWord_quoted (l : List Char) (acc rest : List Char) :
    parseWord .single acc (quoteInner l ++ ('\'' :: rest)) =
      parseWord .norm (l.reverse ++ acc) rest := by
  induction l generalizing acc with
  | nil => simp [quoteInner, parseWord]
  | cons c t ih =>
    by_cases hc : c = '\''
    · subst hc
      have hstep : parseWord .single acc (quoteInner ('\'' :: t) ++ ('\'' :: rest)) =
          parseWord .single ('\'' :: acc) (quoteInner t ++ ('\'' :: rest)) := rfl
      rw [hstep, ih]
      simp
    · rw [show quoteInner (c :: t) = c :: quoteInner t by
        simp [quoteInner, if_neg hc]]
      rw [List.cons_append]
      simp only [parseWord]
      rw [if_neg hc, ih]
      simp

/-- C3: for every secret string — including ones containing single quotes,
double quotes and whitespace — the quoting with which the rendered
provisioning script embeds the secret (`pw = shlex.quote(secret)`, spliced
into the `TERMUX_SSH_PASSWORD={pw}` assignment) is shell-safe: parsing the
rendered value as a single word under POSIX shell quoting rules reconstructs
exactly the original secret string, so the secret is one literal word and
cannot be interpreted as additional shell syntax. -/
theorem shlexQuote_roundtrip (secret : String) :
    shellParseWord (shlexQuote secret) = some secret := by
  unfold shellParseWord shlexQuote
  by_cases h0 : secret = ""
  · subst h0; rfl
  · rw [if_neg h0]
    by_cases hsafe : secret.data.all shlexSafeChar = true
    · rw [if_pos hsafe, parseWord_safe secret.data [] hsafe]
      simp
    · rw [if_neg hsafe]
      have hdata : ("'" ++ String.mk (quoteInner secret.data) ++ "'").data =
          '\'' :: (quoteInner secret.data ++ ('\'' :: [])) := by
        simp [String.data_append]
      rw [hdata]
      have hstep : parseWord .norm [] ('\'' :: (quoteInner secret.data ++ ('\'' :: []))) =
          parseWord .single [] (quoteInner secret.data ++ ('\'' :: [])) := rfl
      rw [hstep, parseWord_quoted, parseWord]
      simp

/-! ### Claim theorems -/

/-- C4: for every bridge invocation that completes with a captured result, the
per-device install operation classifies the outcome as `Success` if and only if
the exit code is zero or the captured stdout contains the `"Success"` marker;
otherwise it is a `Failed` outcome carrying the stderr text, or the stdout text
when stderr is empty. -/
theorem install_success_classification
    (adbInstall : String → String → Except String CompletedProcess)
    (device_id apk_path : String) (r : CompletedProcess)
    (h : adbInstall device_id apk_path = .ok r) :
    (install_apk_on_device adbInstall device_id apk_path = Outcome.Success ↔
      (r.returncode = 0 ∨ pyIn "Success" r.stdout = true)) ∧
    (¬(r.returncode = 0 ∨ pyIn "Success" r.stdout = true) →
      install_apk_on_device adbInstall device_id apk_path =
        Outcome.Failed (if r.stderr = "" then r.stdout else r.stderr)) := by
  unfold install_apk_on_device
  rw [h]
  constructor
  · cases hb : (r.returncode == 0 || pyIn "Success" r.stdout) with
    | true =>
      simp only [if_pos hb]
      simp only [Bool.or_eq_true, beq_iff_eq] at hb
      simp [hb]
    | false =>
      simp only [Bool.or_eq_false_iff, beq_eq_false_iff_ne] at hb
      simp [hb.1, hb.2]
  · intro hn
    push_neg at hn
    have hb : (r.returncode == 0 || pyIn "Success" r.stdout) = false := by
      simp [hn.1, hn.2]
    simp only [if_neg (by simp [hb] : ¬(r.returncode == 0 || pyIn "Success" r.stdout) = true)]
    congr 1
    simp [beq_iff_eq]

/-- C4 witness: a concrete non-zero exit with no marker is classified `Failed`
with the stderr text, and a concrete zero exit is classified `Success`. -/
theorem install_success_classification_witness :
    install_apk_on_device (fun _ _ => .ok ⟨1, "out", "err"⟩) "D1" "/tmp/a.apk" =
      Outcome.Failed "err" ∧
    install_apk_on_device (fun _ _ => .ok ⟨0, "", ""⟩) "D1" "/tmp/a.apk" =
      Outcome.Success := by
  constructor
  · have h := (install_success_classification (fun _ _ => .ok ⟨1, "out", "err"⟩)
      "D1" "/tmp/a.apk" ⟨1, "out", "err"⟩ rfl).2 (by decide)
    exact h
  · have h := (install_success_classification (fun _ _ => .ok ⟨0, "", ""⟩)
      "D1" "/tmp/a.apk" ⟨0, "", ""⟩ rfl).1.mpr (by decide)
    exact h

/-- C5: over every release payload containing at least one asset whose name
matches the marker-and-extension predicate, resolution returns the first such
asset in listing order (its download URL and name). -/
theorem release_selects_first_match (pre post : List Asset) (a : Asset)
    (hpre : ∀ b ∈ pre, liteApkMatch b = false) (ha : liteApkMatch a = true) :
    get_latest_acurast_lite_apk (.ok (pre ++ a :: post)) =
      .ok (a.browser_download_url, a.name) := by
  have hfind : findLiteApk (pre ++ a :: post) = some a := by
    induction pre with
    | nil => simp [findLiteApk, ha]
    | cons b t ih =>
      have hb := hpre b (by simp)
      rw [List.cons_append, findLiteApk]
      rw [if_neg (by simp [hb])]
      exact ih fun x hx => hpre x (by simp [hx])
  simp [get_latest_acurast_lite_apk, hfind]

/-- C5 witness: over the payload with asset names `app-v1.apk`,
`processor-lite-v2.apk`, `other.txt`, resolution selects
`processor-lite-v2.apk`. -/
theorem release_selects_first_match_witness :
    get_latest_acurast_lite_apk (.ok [⟨"app-v1.apk", "u1"⟩,
      ⟨"processor-lite-v2.apk", "u2"⟩, ⟨"other.txt", "u3"⟩]) =
      .ok ("u2", "processor-lite-v2.apk") := by
  have h := release_selects_first_match [⟨"app-v1.apk", "u1"⟩]
    [⟨"other.txt", "u3"⟩] ⟨"processor-lite-v2.apk", "u2"⟩
    (by intro b hb; simp at hb; subst hb; decide) (by decide)
  exact h

/-- C8 counterexample: the provisioning flow's bridge invoker `run` called with
`check=True` (its Python default, used by the push and chmod calls) does raise
on a non-zero exit instead of returning the captured result, refuting the
claim as stated. -/
theorem run_checked_raises_counterexample :
    ((⟨"adb", fun _ => ⟨1, "", "push failed"⟩, "/tmp/s.sh"⟩ : SshEnv).exec
      ["adb", "push", "a", "b"]).returncode = 1 ∧
    run ⟨"adb", fun _ => ⟨1, "", "push failed"⟩, "/tmp/s.sh"⟩
      ["adb", "push", "a", "b"] true = .error "CalledProcessError" :=
  ⟨rfl, rfl⟩

/-- C8 amended: a bridge invocation made with checking disabled (`check=False`,
as `check_termux_installed` and the best-effort steps do) returns normally with
the captured exit code, stdout and stderr even on a non-zero exit; with
`check=True` (the Python default, used by push and chmod) it raises
`CalledProcessError` on a non-zero exit; and the install flow's invocation
never converts a captured non-zero exit into an exception outcome. -/
theorem run_unchecked_never_raises (env : SshEnv) (args : List String) :
    run env args false = .ok (env.exec args) ∧
    ((env.exec args).returncode ≠ 0 →
      run env args true = .error "CalledProcessError") ∧
    (∀ (adbInstall : String → String → Except String CompletedProcess)
      (d p : String) (r : CompletedProcess), adbInstall d p = .ok r →
      (install_apk_on_device adbInstall d p).isError = false) := by
  refine ⟨rfl, ?_, ?_⟩
  · intro hrc
    unfold run
    rw [if_pos (by simp [hrc])]
  · intro adbInstall d p r hr
    simp only [install_apk_on_device, hr]
    split <;> rfl

/-- C8 amended witness: a concrete non-zero exit returned normally with
`check=False` and raising with `check=True`. -/
theorem run_unchecked_never_raises_witness :
    run ⟨"adb", fun _ => ⟨1, "out", "err"⟩, "/t"⟩ ["adb", "x"] false =
      .ok ⟨1, "out", "err"⟩ ∧
    run ⟨"adb", fun _ => ⟨1, "out", "err"⟩, "/t"⟩ ["adb", "x"] true =
      .error "CalledProcessError" ∧
    (install_apk_on_device (fun _ _ => .ok ⟨1, "out", "err"⟩) "D1" "/a").isError
      = false := by
  have h := run_unchecked_never_raises ⟨"adb", fun _ => ⟨1, "out", "err"⟩, "/t"⟩
    ["adb", "x"]
  exact ⟨h.1, h.2.1 (by decide), h.2.2 (fun _ _ => .ok ⟨1, "out", "err"⟩)
    "D1" "/a" ⟨1, "out", "err"⟩ rfl⟩

/-- C10: the provisioning flow acts only on the first identifier of the device
list — two runs whose device lists share the first identifier but differ
arbitrarily afterwards produce the identical result: the same sequence of
bridge invocations, written files, and exit status. -/
theorem provisioning_first_device_only (env : SshEnv) (d : String)
    (rest1 rest2 : List String) (pw : String) :
    setup_main env (d :: rest1) pw = setup_main env (d :: rest2) pw := rfl

/-- C1: for every fleet of N ≥ 1 device identifiers, the fan-out produces
exactly N per-device outcomes — one per submitted device identifier, with no
duplicates and no omissions — for every completion order. -/
theorem fleet_outcomes_one_per_device (devices : List String)
    (op : String → Outcome) (order : List (Fin devices.length))
    (hN : 1 ≤ devices.length)
    (hperm : order.Perm (List.finRange devices.length)) :
    (runAcrossFleet devices op order).length = devices.length ∧
    (runAcrossFleet devices op order).Perm
      (devices.map fun d => (d, op d)) := by
  have hmap : (List.finRange devices.length).map
      (fun i => (devices.get i, op (devices.get i))) =
      devices.map fun d => (d, op d) := by
    conv_rhs => rw [← List.finRange_map_get devices]
    rw [List.map_map]
    rfl
  refine ⟨?_, ?_⟩
  · rw [runAcrossFleet, List.length_map, hperm.length_eq, List.length_finRange]
  · have h := hperm.map fun i => (devices.get i, op (devices.get i))
    rw [hmap] at h
    exact h

/-- C1 witness: a fleet of two devices completing in reverse order yields
exactly the two outcomes, one per device. -/
theorem fleet_outcomes_one_per_device_witness :
    (runAcrossFleet ["D1", "D2"] (fun _ => Outcome.Success)
      [⟨1, by decide⟩, ⟨0, by decide⟩]).length = 2 ∧
    (runAcrossFleet ["D1", "D2"] (fun _ => Outcome.Success)
      [⟨1, by decide⟩, ⟨0, by decide⟩]).Perm
      (["D1", "D2"].map fun d => (d, Outcome.Success)) := by
  have h := fleet_outcomes_one_per_device ["D1", "D2"]
    (fun _ => Outcome.Success) [⟨1, by decide⟩, ⟨0, by decide⟩]
    (by decide) (by decide)
  exact h

/-- C2: an exception raised by one device's bridge call is caught and becomes
an `Error` outcome for that device only — every submitted device still gets an
outcome, and any device whose bridge call completes normally gets a
non-exception outcome, whatever happens on the other devices. -/
theorem fleet_exception_isolation
    (adbInstall : String → String → Except String CompletedProcess)
    (apk_path : String) (devices : List String)
    (order : List (Fin devices.length))
    (hperm : order.Perm (List.finRange devices.length)) :
    (∀ d ∈ devices, ∃ o, (d, o) ∈ runAcrossFleet devices
      (fun x => install_apk_on_device adbInstall x apk_path) order) ∧
    (∀ d ∈ devices, ∀ e, adbInstall d apk_path = .error e →
      (d, Outcome.Error e) ∈ runAcrossFleet devices
        (fun x => install_apk_on_device adbInstall x apk_path) order) ∧
    (∀ d o r, adbInstall d apk_path = .ok r →
      (d, o) ∈ runAcrossFleet devices
        (fun x => install_apk_on_device adbInstall x apk_path) order →
      o.isError = false) := by
  have hmem : ∀ d ∈ devices,
      (d, install_apk_on_device adbInstall d apk_path) ∈ runAcrossFleet devices
        (fun x => install_apk_on_device adbInstall x apk_path) order := by
    intro d hd
    obtain ⟨i, hi⟩ := List.mem_iff_get.mp hd
    have hio : i ∈ order := hperm.mem_iff.mpr (List.mem_finRange i)
    have hm : (devices.get i, install_apk_on_device adbInstall (devices.get i)
        apk_path) ∈ runAcrossFleet devices
        (fun x => install_apk_on_device adbInstall x apk_path) order :=
      List.mem_map.mpr ⟨i, hio, rfl⟩
    rwa [hi] at hm
  refine ⟨fun d hd => ⟨install_apk_on_device adbInstall d apk_path, hmem d hd⟩,
    fun d hd e he => ?_, fun d o r hr hdo => ?_⟩
  · have h := hmem d hd
    have heq : install_apk_on_device adbInstall d apk_path = Outcome.Error e := by
      simp [install_apk_on_device, he]
    rwa [heq] at h
  · rw [runAcrossFleet] at hdo
    obtain ⟨i, _, heq⟩ := List.mem_map.mp hdo
    injection heq with h1 h2
    rw [← h2, h1]
    simp only [install_apk_on_device, hr]
    split <;> rfl

/-- C2 witness: in a fleet of three where device `d2`'s bridge call raises,
`d2` gets the `Error` outcome and `d1`, `d3` get `Success`. -/
theorem fleet_exception_isolation_witness :
    ("d2", Outcome.Error "boom") ∈ runAcrossFleet ["d1", "d2", "d3"]
      (fun x => install_apk_on_device
        (fun d _ => if d = "d2" then .error "boom" else .ok ⟨0, "Success", ""⟩)
        x "/tmp/a.apk")
      [⟨2, by decide⟩, ⟨0, by decide⟩, ⟨1, by decide⟩] ∧
    ("d1", Outcome.Success) ∈ runAcrossFleet ["d1", "d2", "d3"]
      (fun x => install_apk_on_device
        (fun d _ => if d = "d2" then .error "boom" else .ok ⟨0, "Success", ""⟩)
        x "/tmp/a.apk")
      [⟨2, by decide⟩, ⟨0, by decide⟩, ⟨1, by decide⟩] ∧
    ("d3", Outcome.Success) ∈ runAcrossFleet ["d1", "d2", "d3"]
      (fun x => install_apk_on_device
        (fun d _ => if d = "d2" then .error "boom" else .ok ⟨0, "Success", ""⟩)
        x "/tmp/a.apk")
      [⟨2, by decide⟩, ⟨0, by decide⟩, ⟨1, by decide⟩] := by
  have h := fleet_exception_isolation
    (fun d _ => if d = "d2" then .error "boom" else .ok ⟨0, "Success", ""⟩)
    "/tmp/a.apk" ["d1", "d2", "d3"]
    [⟨2, by decide⟩, ⟨0, by decide⟩, ⟨1, by decide⟩] (by decide)
  exact ⟨h.2.1 "d2" (by decide) "boom" rfl, by decide, by decide⟩

/-- C6: when the release payload parses but no asset satisfies the name
predicate, resolution fails with the not-found error (it does not return an
empty or default reference), and the run aborts with no install fan-out, no
bridge invocation and no outcomes. -/
theorem no_matching_asset_aborts (env : InstallEnv) (devices : List String)
    (order : List (Fin devices.length)) (assets : List Asset)
    (hfetch : env.fetched = .ok assets) (hnone : findLiteApk assets = none) :
    get_latest_acurast_lite_apk env.fetched =
      .error "Could not find processor-lite APK in latest release" ∧
    mainInstall env devices order = ([], []) := by
  have hres : get_latest_acurast_lite_apk env.fetched =
      .error "Could not find processor-lite APK in latest release" := by
    rw [hfetch]
    simp [get_latest_acurast_lite_apk, hnone]
  refine ⟨hres, ?_⟩
  unfold mainInstall
  rw [hres]
  split <;> rfl

/-- C6 witness: a payload with assets `app-v1.apk` and `other.txt` (no match)
makes resolution fail and the whole run abort with no events. -/
theorem no_matching_asset_aborts_witness :
    get_latest_acurast_lite_apk
      (.ok [⟨"app-v1.apk", "u1"⟩, ⟨"other.txt", "u3"⟩]) =
      .error "Could not find processor-lite APK in latest release" ∧
    mainInstall ⟨.ok [⟨"app-v1.apk", "u1"⟩, ⟨"other.txt", "u3"⟩],
      fun _ _ => .ok "/tmp/a.apk", fun _ _ => .ok ⟨0, "Success", ""⟩,
      fun _ => true⟩ ["D1"] [⟨0, by decide⟩] = ([], []) := by
  have h := no_matching_asset_aborts
    ⟨.ok [⟨"app-v1.apk", "u1"⟩, ⟨"other.txt", "u3"⟩],
      fun _ _ => .ok "/tmp/a.apk", fun _ _ => .ok ⟨0, "Success", ""⟩,
      fun _ => true⟩ ["D1"] [⟨0, by decide⟩]
    [⟨"app-v1.apk", "u1"⟩, ⟨"other.txt", "u3"⟩] rfl (by decide)
  exact h

/-- C9: in every run of the install flow that reaches fan-out, the cleanup step
runs exactly once and only after all per-device install operations, and the run
still completes (`IEvent.done`) when the artifact file is already gone at
cleanup time (the existence-guarded delete is idempotent). -/
theorem cleanup_once_after_join (env : InstallEnv) (devices : List String)
    (order : List (Fin devices.length)) (url name path : String)
    (hne : devices ≠ [])
    (hres : get_latest_acurast_lite_apk env.fetched = .ok (url, name))
    (hdl : env.download url name = .ok path) :
    (mainInstall env devices order).1 =
      (order.map fun i => IEvent.install (devices.get i)) ++
        [IEvent.cleanup (env.fileExists path), IEvent.done] ∧
    ((mainInstall env devices order).1.countP isCleanupEvent) = 1 := by
  have hie : devices.isEmpty = false := by
    cases devices with
    | nil => exact absurd rfl hne
    | cons a t => rfl
  have hmain : (mainInstall env devices order).1 =
      (order.map fun i => IEvent.install (devices.get i)) ++
        [IEvent.cleanup (env.fileExists path), IEvent.done] := by
    simp [mainInstall, hres, hdl, hie]
  refine ⟨hmain, ?_⟩
  rw [hmain, List.countP_append]
  have h0 : (order.map fun i => IEvent.install (devices.get i)).countP
      isCleanupEvent = 0 := by
    rw [List.countP_eq_zero]
    intro e he
    obtain ⟨i, _, rfl⟩ := List.mem_map.mp he
    simp [isCleanupEvent]
  rw [h0]
  simp [List.countP_cons, isCleanupEvent]

/-- C9 witness: a two-device run whose artifact is already removed at cleanup
time still produces both installs, one cleanup and the completion event. -/
theorem cleanup_once_after_join_witness :
    (mainInstall ⟨.ok [⟨"processor-lite-v2.apk", "u2"⟩],
      fun _ _ => .ok "/tmp/processor-lite-v2.apk",
      fun _ _ => .ok ⟨0, "Success", ""⟩, fun _ => false⟩
      ["D1", "D2"] [⟨1, by decide⟩, ⟨0, by decide⟩]).1 =
      [IEvent.install "D2", IEvent.install "D1",
        IEvent.cleanup false, IEvent.done] ∧
    ((mainInstall ⟨.ok [⟨"processor-lite-v2.apk", "u2"⟩],
      fun _ _ => .ok "/tmp/processor-lite-v2.apk",
      fun _ _ => .ok ⟨0, "Success", ""⟩, fun _ => false⟩
      ["D1", "D2"] [⟨1, by decide⟩, ⟨0, by decide⟩]).1.countP
      isCleanupEvent) = 1 := by
  have h := cleanup_once_after_join ⟨.ok [⟨"processor-lite-v2.apk", "u2"⟩],
      fun _ _ => .ok "/tmp/processor-lite-v2.apk",
      fun _ _ => .ok ⟨0, "Success", ""⟩, fun _ => false⟩
    ["D1", "D2"] [⟨1, by decide⟩, ⟨0, by decide⟩]
    "u2" "processor-lite-v2.apk" "/tmp/processor-lite-v2.apk"
    (by decide) rfl rfl
  exact ⟨h.1, h.2⟩

/-- C7: the provisioning flow's exit status is exactly 2 when the device list
is empty or the secret is empty/whitespace-only (with an empty event trace: no
script file written, no device touched), exactly 3 when the Termux package is
not found installed (only the package query having run), and exactly 0 when
the flow runs to completion; each precondition check short-circuits the rest
of the flow. -/
theorem provisioning_exit_codes (env : SshEnv) (DEVICES : List String)
    (pw : String) :
    (DEVICES = [] → setup_main env DEVICES pw = .exit 2 []) ∧
    (DEVICES ≠ [] → pyStrip pw = "" → setup_main env DEVICES pw = .exit 2 []) ∧
    (∀ d rest, DEVICES = d :: rest → pyStrip pw ≠ "" →
      check_termux_installed env d = false →
      setup_main env DEVICES pw = .exit 3 [SEvent.adb (pmListArgs env d)]) ∧
    (∀ d rest, DEVICES = d :: rest → pyStrip pw ≠ "" →
      check_termux_installed env d = true →
      (env.exec (pushArgs env d)).returncode = 0 →
      (env.exec (chmodArgs env d)).returncode = 0 →
      setup_main env DEVICES pw = .exit 0
        [SEvent.adb (pmListArgs env d),
          SEvent.writeFile (termux_bash_script (shlexQuote pw)),
          SEvent.adb (forceStopArgs env d),
          SEvent.adb (pushArgs env d),
          SEvent.adb (chmodArgs env d),
          SEvent.adb (amStartArgs env d),
          SEvent.adb (inputTextArgs env d),
          SEvent.adb (keyeventArgs env d)]) := by
  refine ⟨?_, ?_, ?_, ?_⟩
  · rintro rfl
    rfl
  · intro hne hpw
    cases DEVICES with
    | nil => exact absurd rfl hne
    | cons d rest => simp [setup_main, hpw]
  · rintro d rest rfl hpw hterm
    simp [setup_main, hpw, hterm]
  · rintro d rest rfl hpw hterm hpush hchmod
    simp [setup_main, hpw, hterm, run, hpush, hchmod]

/-- C7 witness: concrete runs hitting each exit status — empty device list,
whitespace-only secret, missing Termux package, and a complete flow. -/
theorem provisioning_exit_codes_witness :
    setup_main ⟨"adb", fun _ => ⟨0, "package:com.termux", ""⟩, "/tmp/x.sh"⟩
      [] "pw" = .exit 2 [] ∧
    setup_main ⟨"adb", fun _ => ⟨0, "package:com.termux", ""⟩, "/tmp/x.sh"⟩
      ["D1"] " \t" = .exit 2 [] ∧
    setup_main ⟨"adb", fun _ => ⟨0, "", ""⟩, "/tmp/x.sh"⟩ ["D1"] "pw" =
      .exit 3 [SEvent.adb (pmListArgs ⟨"adb", fun _ => ⟨0, "", ""⟩, "/tmp/x.sh"⟩
        "D1")] ∧
    setup_main ⟨"adb", fun _ => ⟨0, "package:com.termux", ""⟩, "/tmp/x.sh"⟩
      ["D1"] "pw" = .exit 0
      [SEvent.adb (pmListArgs ⟨"adb", fun _ => ⟨0, "package:com.termux", ""⟩,
        "/tmp/x.sh"⟩ "D1"),
        SEvent.writeFile (termux_bash_script (shlexQuote "pw")),
        SEvent.adb (forceStopArgs ⟨"adb", fun _ => ⟨0, "package:com.termux", ""⟩,
          "/tmp/x.sh"⟩ "D1"),
        SEvent.adb (pushArgs ⟨"adb", fun _ => ⟨0, "package:com.termux", ""⟩,
          "/tmp/x.sh"⟩ "D1"),
        SEvent.adb (chmodArgs ⟨"adb", fun _ => ⟨0, "package:com.termux", ""⟩,
          "/tmp/x.sh"⟩ "D1"),
        SEvent.adb (amStartArgs ⟨"adb", fun _ => ⟨0, "package:com.termux", ""⟩,
          "/tmp/x.sh"⟩ "D1"),
        SEvent.adb (inputTextArgs ⟨"adb", fun _ => ⟨0, "package:com.termux", ""⟩,
          "/tmp/x.sh"⟩ "D1"),
        SEvent.adb (keyeventArgs ⟨"adb", fun _ => ⟨0, "package:com.termux", ""⟩,
          "/tmp/x.sh"⟩ "D1")] := by
  refine ⟨(provisioning_exit_codes ⟨"adb", fun _ => ⟨0, "package:com.termux", ""⟩,
      "/tmp/x.sh"⟩ [] "pw").1 rfl, ?_, ?_, ?_⟩
  · exact (provisioning_exit_codes ⟨"adb", fun _ => ⟨0, "package:com.termux", ""⟩,
      "/tmp/x.sh"⟩ ["D1"] " \t").2.1 (by decide) (by decide)
  · exact (provisioning_exit_codes ⟨"adb", fun _ => ⟨0, "", ""⟩, "/tmp/x.sh"⟩
      ["D1"] "pw").2.2.1 "D1" [] rfl (by decide) (by decide)
  · exact (provisioning_exit_codes ⟨"adb", fun _ => ⟨0, "package:com.termux", ""⟩,
      "/tmp/x.sh"⟩ ["D1"] "pw").2.2.2 "D1" [] rfl (by decide) (by decide)
      (by decide) (by decide)
